import Mathlib

/-!
Verification development for the CampusLinker repository.

Part 1 embeds the client-side script `static/js/script.js` (DOM state is
modelled explicitly; timers are modelled as idealized schedules carrying the
literal millisecond constants of the source).

Part 2 embeds the SQL schema (nine CREATE TABLE statements) and the seed
script `scripts/02_insert_sample_data.sql` as a state machine over a typed
database value, with unique and foreign-key constraint checks performed at
insert time, as the database engine would.
-/

/-! ## Client script: form validation (`validateForm`) -/

/-- A character the JavaScript `String.prototype.trim` removes (the common
whitespace characters; exotic Unicode space code points do not occur in this
development's inputs). -/
def jsWhitespace (c : Char) : Bool :=
  c == ' ' || c == '\t' || c == '\n' || c == '\r' || c == '\x0b' || c == '\x0c'

/-- JavaScript `value.trim()`: removes leading and trailing whitespace. -/
def jsTrim (s : String) : String :=
  String.mk (((s.data.dropWhile jsWhitespace).reverse.dropWhile jsWhitespace).reverse)

/-- An `<input>` element as the script observes it: its `required` attribute,
its current `value`, and its `style.borderColor`. -/
structure Input where
  required : Bool
  value : String
  borderColor : String
deriving DecidableEq

/-- The body of the `forEach` in `validateForm`: a required input with an
empty-after-trim value gets a red border and invalidates the form; any other
required input gets a green border. Returns the updated input and the
contribution to `isValid`. -/
def validateInput (input : Input) : Input × Bool :=
  if (jsTrim input.value).isEmpty then
    ({ input with borderColor := "#dc3545" }, false)
  else
    ({ input with borderColor := "#28a745" }, true)

/-- `validateForm` from `script.js`: iterates the form's inputs; the ones
matching `input[required]` are processed by the `forEach` body, the rest are
untouched; `isValid` starts `true` and is the conjunction of the
per-required-input outcomes. -/
def validateForm : List Input → List Input × Bool
  | [] => ([], true)
  | input :: rest =>
      let tail := validateForm rest
      if input.required then
        let step := validateInput input
        (step.1 :: tail.1, step.2 && tail.2)
      else
        (input :: tail.1, tail.2)

/-- Characterization of the border-colour effect of `validateForm` on a single
input: required inputs are marked red or green by the emptiness of their
trimmed value, non-required inputs are untouched. -/
def markedInput (input : Input) : Input :=
  if input.required then
    if (jsTrim input.value).isEmpty then { input with borderColor := "#dc3545" }
    else { input with borderColor := "#28a745" }
  else input

/-- A concrete required input whose value is whitespace only (empty after
trimming). -/
def blankRequiredInput : Input := { required := true, value := "   ", borderColor := "" }

/-- A concrete required input with a non-empty value. -/
def filledRequiredInput : Input := { required := true, value := "John", borderColor := "" }

/-! ## Client script: `showLoading` and the form submit listener -/

/-- A submit button as the script observes it: `textContent` and `disabled`. -/
structure Button where
  textContent : String
  disabled : Bool
deriving DecidableEq

/-- `showLoading` from `script.js`: captures the button's original text, sets
the text to "Loading..." and disables the button, and schedules a restore
callback after a fixed 2000 ms. The result is the button's immediate state,
the timer delay, and the captured original text the callback will restore. -/
def showLoading (button : Button) : Button × Nat × String :=
  let originalText := button.textContent
  ({ button with textContent := "Loading...", disabled := true }, 2000, originalText)

/-- The `setTimeout` callback inside `showLoading`: applied to whatever the
button's state is when the timer fires, it writes back the captured original
text and re-enables the button, unconditionally. -/
def restoreButton (originalText : String) (button : Button) : Button :=
  { button with textContent := originalText, disabled := false }

/-- A `<form>` element as the submit listener observes it: its
`button[type="submit"]`, if any. -/
structure FormDom where
  submitButton : Option Button
deriving DecidableEq

/-- The submit listener from `script.js`: guarded lookup of the submit button;
when the button is absent the handler does nothing, otherwise it runs
`showLoading` on it. -/
def formSubmitHandler (form : FormDom) : Option (Button × Nat × String) :=
  form.submitButton.map showLoading

/-! ## Client script: `showRegister` / `showLogin` (unguarded lookups) -/

/-- A styled element as `showRegister`/`showLogin` observe it. -/
structure StyledElement where
  display : String
deriving DecidableEq

/-- The part of the page the auth-panel toggles touch: the result of
`document.querySelector(".auth-card:first-child")` and of
`document.getElementById("register-form")`, either of which can be absent. -/
structure AuthPageDom where
  firstAuthCard : Option StyledElement
  registerForm : Option StyledElement
deriving DecidableEq

/-- A thrown JavaScript error (reading `.style` of a null lookup result). -/
inductive JsError where
  | typeError (msg : String)
deriving DecidableEq

/-- Dereferencing a DOM lookup result: `null.style` throws a TypeError. -/
def styleOf : Option StyledElement → Except JsError StyledElement
  | some e => .ok e
  | none => .error (.typeError "Cannot read properties of null")

/-- `showRegister` from `script.js`: sets the first auth card's display to
"none", then the register form's display to "block". Both lookups are
unguarded: a missing element throws. -/
def showRegister (dom : AuthPageDom) : Except JsError AuthPageDom := do
  let card ← styleOf dom.firstAuthCard
  let dom1 := { dom with firstAuthCard := some { card with display := "none" } }
  let form ← styleOf dom1.registerForm
  pure { dom1 with registerForm := some { form with display := "block" } }

/-- `showLogin` from `script.js`: sets the first auth card's display to
"block", then the register form's display to "none". Both lookups are
unguarded: a missing element throws. -/
def showLogin (dom : AuthPageDom) : Except JsError AuthPageDom := do
  let card ← styleOf dom.firstAuthCard
  let dom1 := { dom with firstAuthCard := some { card with display := "block" } }
  let form ← styleOf dom1.registerForm
  pure { dom1 with registerForm := some { form with display := "none" } }

/-! ## Client script: anchor smooth-scroll click handler -/

/-- The page as the anchor click handler observes it: the ids of the elements
present in the document. -/
structure PageDom where
  elementIds : List String
deriving DecidableEq

/-- `document.querySelector` restricted to the id selectors the handler
issues: `querySelector "#x"` finds an element whose id is `x`. -/
def querySelectorId (dom : PageDom) (sel : String) : Option String :=
  dom.elementIds.find? (fun i => sel == "#" ++ i)

/-- The observable outcome of one click on an `a[href^="#"]` anchor. -/
structure AnchorClickResult where
  defaultPrevented : Bool
  scrollTarget : Option String
deriving DecidableEq

/-- The anchor click handler from `script.js`: it calls `e.preventDefault()`
first, unconditionally, then looks up the href's target and calls
`scrollIntoView` on it only if the lookup succeeded. -/
def anchorClickHandler (dom : PageDom) (href : String) : AnchorClickResult :=
  { defaultPrevented := true, scrollTarget := querySelectorId dom href }

/-! ## Client script: alert auto-dismiss -/

/-- The outer `setTimeout` delay of the alert handler (milliseconds). -/
def alertFadeDelayMs : Nat := 5000

/-- The inner `setTimeout` delay of the alert handler (milliseconds). -/
def alertRemoveDelayMs : Nat := 300

/-- The timeline the DOMContentLoaded handler schedules for one alert element,
with idealized timers: opacity is set to "0" when the outer 5000 ms timer
fires, and the element is removed when the inner 300 ms timer (started at that
point) fires. -/
structure AlertSchedule where
  element : Nat
  opacityZeroAt : Nat
  removedAt : Nat
deriving DecidableEq

/-- The DOMContentLoaded handler from `script.js`: for each element matching
`.alert` at page load it schedules exactly one fade (at 5000 ms) followed by
exactly one removal (300 ms after the fade). -/
def domContentLoadedAlerts (alerts : List Nat) : List AlertSchedule :=
  alerts.map (fun a =>
    { element := a
      opacityZeroAt := alertFadeDelayMs
      removedAt := alertFadeDelayMs + alertRemoveDelayMs })

/-! ## Database schema: enumerated column types

DECIMAL columns are modelled as integers scaled by 100 (two decimal places),
DATE/YEAR/TIMESTAMP values as the literal strings the scripts supply; a
`TIMESTAMP DEFAULT CURRENT_TIMESTAMP` column carries an engine-supplied
string recorded in the insert operation itself. -/

/-- The values of `admission.gender ENUM('Male', 'Female', 'Other')`. -/
inductive Gender where
  | Male | Female | Other
deriving DecidableEq

/-- The values of `admission.status ENUM('Pending', 'Approved', 'Rejected')`. -/
inductive AdmissionStatus where
  | Pending | Approved | Rejected
deriving DecidableEq

/-- The values of `result.result_status ENUM('Pass', 'Fail', 'ATKT')`. -/
inductive ResultStatus where
  | Pass | Fail | ATKT
deriving DecidableEq

/-- The values of `fee.payment_status ENUM('Pending', 'Paid', 'Failed')`. -/
inductive PaymentStatus where
  | Pending | Paid | Failed
deriving DecidableEq

/-! ## Database schema: table rows (one structure per CREATE TABLE) -/

/-- A row of `registration`: `username` and `email_id` are UNIQUE NOT NULL. -/
structure RegistrationRow where
  id : Nat
  username : String
  password : String
  email_id : String
  mobile_no : String
  created_at : String
deriving DecidableEq

/-- A row of `admission`: `aadhar_no` is UNIQUE NOT NULL; `registration_id`
is a nullable column with FOREIGN KEY to `registration(id)`. -/
structure AdmissionRow where
  admission_id : Nat
  registration_id : Option Nat
  student_name : String
  course_name : String
  email_id : String
  date_of_birth : String
  father_name : String
  mother_name : String
  mobile_no : String
  aadhar_no : String
  address : String
  state : String
  district : String
  pincode : String
  gender : Gender
  previous_year_cgpa : Option Int
  obtain_marks : Option Int
  total_marks : Option Int
  percentage : Option Int
  passing_year : Option Int
  photo_path : Option String
  id_proof_path : Option String
  sign_path : Option String
  previous_year_marklist_path : Option String
  status : AdmissionStatus
  created_at : String
deriving DecidableEq

/-- A row of `student`: `admission_id` is a nullable column with FOREIGN KEY
to `admission(admission_id)`; `activity_id` is a plain nullable INT with no
FOREIGN KEY clause in the schema. -/
structure StudentRow where
  student_id : Nat
  admission_id : Option Nat
  student_name : String
  course_name : String
  activity_id : Option Nat
  created_at : String
deriving DecidableEq

/-- A row of `course`: `course_code` is UNIQUE NOT NULL. -/
structure CourseRow where
  course_id : Nat
  course_name : String
  course_code : String
  duration_years : Int
  created_at : String
deriving DecidableEq

/-- A row of `activity`: `student_id` is a nullable column with FOREIGN KEY
to `student(student_id)`. -/
structure ActivityRow where
  activity_id : Nat
  student_id : Option Nat
  course_name : String
  activity_category : String
  activity_date : String
  created_at : String
deriving DecidableEq

/-- A row of `exam`: no UNIQUE or FOREIGN KEY constraint. -/
structure ExamRow where
  exam_id : Nat
  exam_type : String
  exam_fee : Int
  created_at : String
deriving DecidableEq

/-- A row of `result`: `student_id` and `exam_id` are nullable columns with
FOREIGN KEYs to `student(student_id)` and `exam(exam_id)`. -/
structure ResultRow where
  result_id : Nat
  student_id : Option Nat
  exam_id : Option Nat
  course_name : String
  subject : String
  obtain_marks : Int
  total_marks : Int
  grade : Option String
  exam_type : Option String
  cgpa : Option Int
  result_status : ResultStatus
  created_at : String
deriving DecidableEq

/-- A row of `fee`: `admission_id` is a nullable column with FOREIGN KEY to
`admission(admission_id)`. -/
structure FeeRow where
  fee_id : Nat
  admission_id : Option Nat
  student_name : String
  course_name : String
  exam_category : Option String
  amount : Int
  payment_method : String
  payment_status : PaymentStatus
  payment_date : Option String
  created_at : String
deriving DecidableEq

/-- A row of `social_activity`: `student_id` is a nullable column with
FOREIGN KEY to `student(student_id)`. -/
structure SocialActivityRow where
  activity_id : Nat
  student_id : Option Nat
  course_name : String
  activity_category : String
  activity_date : String
  description : Option String
  created_at : String
deriving DecidableEq

/-- The database: which tables have been created, each table's rows in
insertion order, and each table's AUTO_INCREMENT counter. -/
structure DB where
  createdTables : List String
  registration : List RegistrationRow
  admission : List AdmissionRow
  student : List StudentRow
  course : List CourseRow
  activity : List ActivityRow
  exam : List ExamRow
  result : List ResultRow
  fee : List FeeRow
  social_activity : List SocialActivityRow
  nextRegistrationId : Nat
  nextAdmissionId : Nat
  nextStudentId : Nat
  nextCourseId : Nat
  nextActivityId : Nat
  nextExamId : Nat
  nextResultId : Nat
  nextFeeId : Nat
  nextSocialActivityId : Nat
deriving DecidableEq

/-- A database with no tables and no rows; AUTO_INCREMENT counters start
at 1. -/
def emptyDb : DB :=
  { createdTables := []
    registration := [], admission := [], student := [], course := []
    activity := [], exam := [], result := [], fee := [], social_activity := []
    nextRegistrationId := 1, nextAdmissionId := 1, nextStudentId := 1
    nextCourseId := 1, nextActivityId := 1, nextExamId := 1
    nextResultId := 1, nextFeeId := 1, nextSocialActivityId := 1 }

/-- An error signalled by the database engine. -/
inductive SqlError where
  | tableExists (name : String)
  | uniqueViolation (table : String) (column : String)
  | fkViolation (table : String) (column : String)
deriving DecidableEq

/-! ## Schema-creation script (the nine CREATE TABLE statements) -/

/-- One `CREATE TABLE` statement: with `IF NOT EXISTS` an existing table is
left untouched, without it an existing table is an error; otherwise the table
is recorded as created. -/
def createTable (ifNotExists : Bool) (name : String) (db : DB) : Except SqlError DB :=
  if db.createdTables.contains name then
    if ifNotExists then .ok db else .error (.tableExists name)
  else
    .ok { db with createdTables := name :: db.createdTables }

/-- The table names of the schema-creation script, in statement order. There
are nine `CREATE TABLE IF NOT EXISTS` statements. -/
def schemaTableNames : List String :=
  ["registration", "admission", "student", "course", "activity",
   "exam", "result", "fee", "social_activity"]

/-- The schema-creation script: the nine guarded CREATE TABLE statements run
in order, stopping at the first error (none can occur). -/
def runSchemaScript (db : DB) : Except SqlError DB :=
  schemaTableNames.foldlM (fun d n => createTable true n d) db

/-- The effect of one guarded CREATE TABLE on the database. -/
def addTable (name : String) (db : DB) : DB :=
  if db.createdTables.contains name then db
  else { db with createdTables := name :: db.createdTables }

/-- The database after running the schema-creation script on `emptyDb`. -/
def schemaDb : DB := (runSchemaScript emptyDb).toOption.getD emptyDb

/-! ## Insert statements (DML)

Each insert function checks the table's UNIQUE and FOREIGN KEY constraints in
declaration order and, on success, appends the row with the table's
AUTO_INCREMENT value as its id. The argument row's own id field is ignored
and overwritten by the counter; its `created_at` field carries the
engine-supplied `CURRENT_TIMESTAMP` value. NOT NULL constraints hold by
construction (non-nullable columns are not `Option`). -/

/-- A nullable foreign-key reference is valid when it is NULL or its value is
among the referenced ids. -/
def fkOk (ids : List Nat) : Option Nat → Bool
  | none => true
  | some i => ids.contains i

/-- `INSERT INTO registration`: checks the `username` and `email_id` UNIQUE
constraints in declaration order. -/
def insertRegistration (db : DB) (v : RegistrationRow) : Except SqlError DB :=
  if db.registration.any (fun r => r.username == v.username) then
    .error (.uniqueViolation "registration" "username")
  else if db.registration.any (fun r => r.email_id == v.email_id) then
    .error (.uniqueViolation "registration" "email_id")
  else
    .ok { db with
          registration := db.registration ++ [{ v with id := db.nextRegistrationId }]
          nextRegistrationId := db.nextRegistrationId + 1 }

/-- `INSERT INTO admission`: checks the `aadhar_no` UNIQUE constraint, then
the `registration_id` FOREIGN KEY. -/
def insertAdmission (db : DB) (v : AdmissionRow) : Except SqlError DB :=
  if db.admission.any (fun r => r.aadhar_no == v.aadhar_no) then
    .error (.uniqueViolation "admission" "aadhar_no")
  else if fkOk (db.registration.map RegistrationRow.id) v.registration_id then
    .ok { db with
          admission := db.admission ++ [{ v with admission_id := db.nextAdmissionId }]
          nextAdmissionId := db.nextAdmissionId + 1 }
  else
    .error (.fkViolation "admission" "registration_id")

/-- `INSERT INTO student`: checks the `admission_id` FOREIGN KEY. The
`activity_id` column has no FOREIGN KEY clause, so it is not checked. -/
def insertStudent (db : DB) (v : StudentRow) : Except SqlError DB :=
  if fkOk (db.admission.map AdmissionRow.admission_id) v.admission_id then
    .ok { db with
          student := db.student ++ [{ v with student_id := db.nextStudentId }]
          nextStudentId := db.nextStudentId + 1 }
  else
    .error (.fkViolation "student" "admission_id")

/-- `INSERT INTO course`: checks the `course_code` UNIQUE constraint. -/
def insertCourse (db : DB) (v : CourseRow) : Except SqlError DB :=
  if db.course.any (fun r => r.course_code == v.course_code) then
    .error (.uniqueViolation "course" "course_code")
  else
    .ok { db with
          course := db.course ++ [{ v with course_id := db.nextCourseId }]
          nextCourseId := db.nextCourseId + 1 }

/-- `INSERT INTO activity`: checks the `student_id` FOREIGN KEY. -/
def insertActivity (db : DB) (v : ActivityRow) : Except SqlError DB :=
  if fkOk (db.student.map StudentRow.student_id) v.student_id then
    .ok { db with
          activity := db.activity ++ [{ v with activity_id := db.nextActivityId }]
          nextActivityId := db.nextActivityId + 1 }
  else
    .error (.fkViolation "activity" "student_id")

/-- `INSERT INTO exam`: no constraint beyond NOT NULL. -/
def insertExam (db : DB) (v : ExamRow) : Except SqlError DB :=
  .ok { db with
        exam := db.exam ++ [{ v with exam_id := db.nextExamId }]
        nextExamId := db.nextExamId + 1 }

/-- `INSERT INTO result`: checks the `student_id` and `exam_id` FOREIGN KEYs
in declaration order. -/
def insertResult (db : DB) (v : ResultRow) : Except SqlError DB :=
  if fkOk (db.student.map StudentRow.student_id) v.student_id then
    if fkOk (db.exam.map ExamRow.exam_id) v.exam_id then
      .ok { db with
            result := db.result ++ [{ v with result_id := db.nextResultId }]
            nextResultId := db.nextResultId + 1 }
    else .error (.fkViolation "result" "exam_id")
  else .error (.fkViolation "result" "student_id")

/-- `INSERT INTO fee`: checks the `admission_id` FOREIGN KEY. -/
def insertFee (db : DB) (v : FeeRow) : Except SqlError DB :=
  if fkOk (db.admission.map AdmissionRow.admission_id) v.admission_id then
    .ok { db with
          fee := db.fee ++ [{ v with fee_id := db.nextFeeId }]
          nextFeeId := db.nextFeeId + 1 }
  else
    .error (.fkViolation "fee" "admission_id")

/-- `INSERT INTO social_activity`: checks the `student_id` FOREIGN KEY. -/
def insertSocialActivity (db : DB) (v : SocialActivityRow) : Except SqlError DB :=
  if fkOk (db.student.map StudentRow.student_id) v.student_id then
    .ok { db with
          social_activity :=
            db.social_activity ++ [{ v with activity_id := db.nextSocialActivityId }]
          nextSocialActivityId := db.nextSocialActivityId + 1 }
  else
    .error (.fkViolation "social_activity" "student_id")

/-- One single-row insert statement against the database. -/
inductive Op where
  | insRegistration (v : RegistrationRow)
  | insAdmission (v : AdmissionRow)
  | insStudent (v : StudentRow)
  | insCourse (v : CourseRow)
  | insActivity (v : ActivityRow)
  | insExam (v : ExamRow)
  | insResult (v : ResultRow)
  | insFee (v : FeeRow)
  | insSocialActivity (v : SocialActivityRow)
deriving DecidableEq

/-- Execute one insert statement. -/
def execOp (db : DB) : Op → Except SqlError DB
  | .insRegistration v => insertRegistration db v
  | .insAdmission v => insertAdmission db v
  | .insStudent v => insertStudent db v
  | .insCourse v => insertCourse db v
  | .insActivity v => insertActivity db v
  | .insExam v => insertExam db v
  | .insResult v => insertResult db v
  | .insFee v => insertFee db v
  | .insSocialActivity v => insertSocialActivity db v

/-- The state after attempting one statement: a rejected insert leaves the
database unchanged. -/
def applyOp (db : DB) (op : Op) : DB :=
  match execOp db op with
  | .ok db' => db'
  | .error _ => db

/-- Run a script (a list of statements) sequentially, stopping at the first
error, as a SQL client sourcing a file does. -/
def runScript (db : DB) (ops : List Op) : Except SqlError DB :=
  ops.foldlM execOp db

/-- The reachable database states: the state right after schema creation, and
anything obtainable from it by insert statements (failed inserts change
nothing). The repository contains no UPDATE or DELETE statement. -/
inductive Reachable : DB → Prop
  | base : Reachable schemaDb
  | step {db : DB} (op : Op) : Reachable db → Reachable (applyOp db op)

/-! ## The seed script `02_insert_sample_data.sql`

A multi-row INSERT is modelled as its rows in order (its first row is the
first to be checked against the constraints). The id fields of the rows below
are placeholders overwritten by AUTO_INCREMENT; `created_at` carries the
engine-supplied CURRENT_TIMESTAMP value of the run. -/

/-- The engine timestamp of the modelled seed run (its value is irrelevant to
every constraint). -/
def seedTimestamp : String := "2024-01-01 00:00:00"

/-- The seven rows of the seed script's `INSERT INTO course` statement. -/
def seedCourses : List CourseRow :=
  [{ course_id := 0, course_name := "Bachelor of Business Administration",
     course_code := "BBA", duration_years := 3, created_at := seedTimestamp },
   { course_id := 0, course_name := "Bachelor of Commerce",
     course_code := "BCOM", duration_years := 3, created_at := seedTimestamp },
   { course_id := 0, course_name := "Bachelor of Science",
     course_code := "BSC", duration_years := 3, created_at := seedTimestamp },
   { course_id := 0, course_name := "Master of Business Administration",
     course_code := "MBA", duration_years := 2, created_at := seedTimestamp },
   { course_id := 0, course_name := "Master of Commerce",
     course_code := "MCOM", duration_years := 2, created_at := seedTimestamp },
   { course_id := 0, course_name := "Master of Science",
     course_code := "MSC", duration_years := 2, created_at := seedTimestamp },
   { course_id := 0, course_name := "Data Science",
     course_code := "DS", duration_years := 2, created_at := seedTimestamp }]

/-- The seven rows of the seed script's `INSERT INTO exam` statement
(fees in hundredths). -/
def seedExams : List ExamRow :=
  [{ exam_id := 0, exam_type := "Semester 1", exam_fee := 150000, created_at := seedTimestamp },
   { exam_id := 0, exam_type := "Semester 2", exam_fee := 150000, created_at := seedTimestamp },
   { exam_id := 0, exam_type := "Semester 3", exam_fee := 150000, created_at := seedTimestamp },
   { exam_id := 0, exam_type := "Semester 4", exam_fee := 150000, created_at := seedTimestamp },
   { exam_id := 0, exam_type := "Semester 5", exam_fee := 150000, created_at := seedTimestamp },
   { exam_id := 0, exam_type := "Semester 6", exam_fee := 150000, created_at := seedTimestamp },
   { exam_id := 0, exam_type := "Final Exam", exam_fee := 200000, created_at := seedTimestamp }]

/-- The two rows of the seed script's `INSERT INTO registration` statement. -/
def seedRegistrations : List RegistrationRow :=
  [{ id := 0, username := "admin", password := "admin123",
     email_id := "admin@skylink.edu", mobile_no := "9876543210",
     created_at := seedTimestamp },
   { id := 0, username := "student1", password := "pass123",
     email_id := "student1@skylink.edu", mobile_no := "9876543211",
     created_at := seedTimestamp }]

/-- The row of the seed script's `INSERT INTO admission` statement: note the
hard-coded `registration_id = 2`. Unlisted columns take their schema
defaults (`NULL` for the document paths). -/
def seedAdmission : AdmissionRow :=
  { admission_id := 0, registration_id := some 2, student_name := "John Doe",
    course_name := "Bachelor of Business Administration",
    email_id := "john.doe@skylink.edu", date_of_birth := "2000-05-15",
    father_name := "Robert Doe", mother_name := "Mary Doe",
    mobile_no := "9876543211", aadhar_no := "123456789012",
    address := "123 Main Street, City Center", state := "Maharashtra",
    district := "Mumbai", pincode := "400001", gender := .Male,
    previous_year_cgpa := some 850, obtain_marks := some 450,
    total_marks := some 500, percentage := some 9000,
    passing_year := some 2022, photo_path := none, id_proof_path := none,
    sign_path := none, previous_year_marklist_path := none,
    status := .Approved, created_at := seedTimestamp }

/-- The row of the seed script's `INSERT INTO student` statement: hard-coded
`admission_id = 1`; `activity_id` is unlisted, so NULL. -/
def seedStudent : StudentRow :=
  { student_id := 0, admission_id := some 1, student_name := "John Doe",
    course_name := "Bachelor of Business Administration",
    activity_id := none, created_at := seedTimestamp }

/-- The row of the seed script's `INSERT INTO result` statement: hard-coded
`student_id = 1`, `exam_id = 1`. -/
def seedResult : ResultRow :=
  { result_id := 0, student_id := some 1, exam_id := some 1,
    course_name := "Bachelor of Business Administration",
    subject := "Business Mathematics", obtain_marks := 85, total_marks := 100,
    grade := some "A", exam_type := some "Semester 1", cgpa := some 850,
    result_status := .Pass, created_at := seedTimestamp }

/-- The row of the seed script's `INSERT INTO fee` statement: hard-coded
`admission_id = 1`; `payment_date` is unlisted, so NULL. -/
def seedFee : FeeRow :=
  { fee_id := 0, admission_id := some 1, student_name := "John Doe",
    course_name := "Bachelor of Business Administration",
    exam_category := some "Semester 1", amount := 150000,
    payment_method := "Online", payment_status := .Paid,
    payment_date := none, created_at := seedTimestamp }

/-- The seed script as the sequence of its insert statements, in file order:
courses, exams, registrations, admission, student, result, fee. -/
def seedOps : List Op :=
  seedCourses.map Op.insCourse ++ seedExams.map Op.insExam ++
  seedRegistrations.map Op.insRegistration ++
  [Op.insAdmission seedAdmission, Op.insStudent seedStudent,
   Op.insResult seedResult, Op.insFee seedFee]

/-- The database after running the schema script and then the seed script
once on an empty database. -/
def seedDb : DB := seedOps.foldl applyOp schemaDb

/-! ## Derived states and invariant predicates -/

/-- A student insert with a NULL `admission_id` (and NULL `activity_id`):
every NOT NULL column is supplied, so the schema accepts it. -/
def nullAdmissionStudent : StudentRow :=
  { student_id := 0, admission_id := none, student_name := "Ghost Student",
    course_name := "Bachelor of Science", activity_id := none,
    created_at := seedTimestamp }

/-- The database after the schema script followed by the single student
insert with NULL `admission_id`. -/
def studentNoAdmissionDb : DB := applyOp schemaDb (Op.insStudent nullAdmissionStudent)

/-- The uniqueness invariant of the schema's UNIQUE columns:
`registration.username`, `registration.email_id`, `admission.aadhar_no`. -/
def uniqueInv (db : DB) : Prop :=
  (db.registration.map RegistrationRow.username).Nodup ∧
  (db.registration.map RegistrationRow.email_id).Nodup ∧
  (db.admission.map AdmissionRow.aadhar_no).Nodup

/-- The referential invariant of `student.admission_id`: every non-NULL value
points at an existing admission row. -/
def fkInv (db : DB) : Prop :=
  ∀ s ∈ db.student, ∀ aid, s.admission_id = some aid →
    ∃ a ∈ db.admission, a.admission_id = aid

/-- The selector condition of `a[href^="#"]`: the href's first character
is `#`. -/
def startsWithHash (href : String) : Bool :=
  href.data.head? == some '#'

/-! ## Theorems: client script -/

lemma validateForm_eq (form : List Input) :
    validateForm form =
      (form.map markedInput,
       form.all (fun i => !i.required || !(jsTrim i.value).isEmpty)) := by
  induction form with
  | nil => rfl
  | cons i rest ih =>
      by_cases hr : i.required = true
      · by_cases he : (jsTrim i.value).isEmpty = true
        · simp [validateForm, ih, validateInput, markedInput, hr, he]
        · simp [validateForm, ih, validateInput, markedInput, hr, he]
      · simp [validateForm, ih, markedInput, hr]

/-- C1: `validateForm` returns true iff every required input is non-empty
after trimming; it paints each required input red (#dc3545) when its trimmed
value is empty and green (#28a745) otherwise, leaving non-required inputs
untouched; on a form with one blank and one filled required input it returns
false and marks exactly the blank one red. -/
theorem validateForm_required_trim_spec :
    (∀ form : List Input,
      (validateForm form).2 =
        form.all (fun i => !i.required || !(jsTrim i.value).isEmpty) ∧
      (validateForm form).1 = form.map markedInput) ∧
    validateForm [blankRequiredInput, filledRequiredInput] =
      ([{ blankRequiredInput with borderColor := "#dc3545" },
        { filledRequiredInput with borderColor := "#28a745" }], false) := by
  refine ⟨fun form => ?_, by decide⟩
  rw [validateForm_eq]
  exact ⟨rfl, rfl⟩

/-- C6: for every alert element present at page load, the handler schedules
exactly one removal; with idealized timers the opacity is zeroed 5000 ms
after the handler runs and the element is removed at 5300 ms, which is no
earlier than 5000 ms and no later than 5300 ms. -/
theorem alert_dismiss_schedule_spec (alerts : List Nat) :
    (domContentLoadedAlerts alerts).map AlertSchedule.element = alerts ∧
    (domContentLoadedAlerts alerts).all
      (fun s => s.opacityZeroAt == 5000 && s.removedAt == 5300 &&
        decide (5000 ≤ s.removedAt) && decide (s.removedAt ≤ 5300)) = true := by
  constructor
  · induction alerts with
    | nil => rfl
    | cons a rest ih => simp [domContentLoadedAlerts] at ih ⊢; exact ih
  · simp [domContentLoadedAlerts, alertFadeDelayMs, alertRemoveDelayMs]

/-- C7: `showLoading` immediately sets the button's text to "Loading..." and
disables it, schedules the restore at a fixed 2000 ms with the captured
original text, and the restore callback produces exactly the original text
re-enabled, whatever the button's state is when the timer fires (in
particular, whether or not the form submission has completed). -/
theorem showLoading_spec (button laterState : Button) :
    (showLoading button).1 = { textContent := "Loading...", disabled := true } ∧
    (showLoading button).2.1 = 2000 ∧
    (showLoading button).2.2 = button.textContent ∧
    restoreButton (showLoading button).2.2 laterState =
      { textContent := button.textContent, disabled := false } := by
  exact ⟨rfl, rfl, rfl, rfl⟩

/-- C8: `showRegister` and `showLogin` throw when the first `.auth-card` or
the `register-form` element is absent (their lookups are unguarded), while
the guarded lookups elsewhere in the script are silent no-ops: a click on an
anchor whose target is absent only prevents the default navigation, and a
submit on a form without a submit button does nothing. -/
theorem unguarded_lookups_throw :
    (∀ dom : AuthPageDom, dom.firstAuthCard = none ∨ dom.registerForm = none →
      (∃ e, showRegister dom = .error e) ∧ (∃ e, showLogin dom = .error e)) ∧
    (∀ (pd : PageDom) (href : String), querySelectorId pd href = none →
      anchorClickHandler pd href =
        { defaultPrevented := true, scrollTarget := none }) ∧
    (∀ form : FormDom, form.submitButton = none → formSubmitHandler form = none) := by
  refine ⟨fun dom hmiss => ?_, fun pd href h => ?_, fun form h => ?_⟩
  · rcases hcard : dom.firstAuthCard with _ | card
    · constructor <;> exact ⟨.typeError "Cannot read properties of null",
        by simp [showRegister, showLogin, styleOf, hcard, Bind.bind, Except.bind]⟩
    · rcases hmiss with hmiss | hmiss
      · rw [hcard] at hmiss; cases hmiss
      · constructor <;> exact ⟨.typeError "Cannot read properties of null",
          by simp [showRegister, showLogin, styleOf, hcard, hmiss, Bind.bind, Except.bind]⟩
  · simp [anchorClickHandler, h]
  · simp [formSubmitHandler, h]

/-- C8 witness: on a page missing both elements, `showRegister` and
`showLogin` throw, while the guarded handlers are no-ops. -/
theorem unguarded_lookups_throw_witness :
    ((∃ e, showRegister { firstAuthCard := none, registerForm := none } = .error e) ∧
     (∃ e, showLogin { firstAuthCard := none, registerForm := none } = .error e)) ∧
    anchorClickHandler { elementIds := ["top"] } "#missing" =
      { defaultPrevented := true, scrollTarget := none } ∧
    formSubmitHandler { submitButton := none } = none := by
  refine ⟨unguarded_lookups_throw.1 _ (Or.inl rfl), ?_, ?_⟩
  · exact unguarded_lookups_throw.2.1 { elementIds := ["top"] } "#missing" (by decide)
  · exact unguarded_lookups_throw.2.2 _ rfl

/-- C10: for a click on an anchor whose href starts with `#`, the handler
always calls `preventDefault`; it scrolls exactly when the target exists, and
when the target is absent nothing happens beyond suppressing navigation. -/
theorem anchor_click_prevents_default (dom : PageDom) (href : String)
    (_hhref : startsWithHash href = true) :
    (anchorClickHandler dom href).defaultPrevented = true ∧
    (anchorClickHandler dom href).scrollTarget = querySelectorId dom href ∧
    (querySelectorId dom href = none →
      anchorClickHandler dom href =
        { defaultPrevented := true, scrollTarget := none }) := by
  refine ⟨rfl, rfl, fun h => ?_⟩
  simp [anchorClickHandler, h]

/-- C10 witness: clicking `#missing` on a page containing only `top` prevents
the default and does nothing else. -/
theorem anchor_click_prevents_default_witness :
    anchorClickHandler { elementIds := ["top"] } "#missing" =
      { defaultPrevented := true, scrollTarget := none } :=
  (anchor_click_prevents_default { elementIds := ["top"] } "#missing"
    (by decide)).2.2 (by decide)

/-! ## Theorems: schema creation (C2) -/

lemma createTable_true_eq (n : String) (db : DB) :
    createTable true n db = .ok (addTable n db) := by
  unfold createTable addTable
  split <;> rfl

lemma foldlM_createTable (ns : List String) (db : DB) :
    ns.foldlM (fun d n => createTable true n d) db =
      .ok (ns.foldl (fun d n => addTable n d) db) := by
  induction ns generalizing db with
  | nil => rfl
  | cons n rest ih =>
      rw [List.foldlM_cons, createTable_true_eq]
      exact ih (addTable n db)

lemma runSchemaScript_eq (db : DB) :
    runSchemaScript db =
      .ok (schemaTableNames.foldl (fun d n => addTable n d) db) :=
  foldlM_createTable schemaTableNames db

lemma contains_addTable_self (n : String) (db : DB) :
    (addTable n db).createdTables.contains n = true := by
  unfold addTable
  split
  · assumption
  · simp

lemma contains_addTable_mono (n m : String) (db : DB)
    (h : db.createdTables.contains m = true) :
    (addTable n db).createdTables.contains m = true := by
  unfold addTable
  split
  · exact h
  · simp only [List.contains_cons, h, Bool.or_true]

lemma contains_foldl_mono (ns : List String) (db : DB) (m : String)
    (h : db.createdTables.contains m = true) :
    ((ns.foldl (fun d n => addTable n d) db).createdTables.contains m) = true := by
  induction ns generalizing db with
  | nil => exact h
  | cons n rest ih =>
      exact ih (addTable n db) (contains_addTable_mono n m db h)

lemma contains_foldl_addTable (ns : List String) (n : String) (h : n ∈ ns) :
    ∀ db : DB,
      ((ns.foldl (fun d m => addTable m d) db).createdTables.contains n) = true := by
  induction ns with
  | nil => cases h
  | cons m rest ih =>
      intro db
      rcases List.mem_cons.mp h with rfl | h2
      · exact contains_foldl_mono rest (addTable n db) n (contains_addTable_self n db)
      · exact ih h2 (addTable m db)

lemma addTable_of_contains (n : String) (db : DB)
    (h : db.createdTables.contains n = true) : addTable n db = db := by
  unfold addTable
  rw [if_pos h]

lemma foldl_addTable_of_contains (ns : List String) (db : DB)
    (h : ∀ n ∈ ns, db.createdTables.contains n = true) :
    ns.foldl (fun d m => addTable m d) db = db := by
  induction ns with
  | nil => rfl
  | cons m rest ih =>
      rw [List.foldl_cons, addTable_of_contains m db (h m (List.mem_cons_self m rest))]
      exact ih (fun n hn => h n (List.mem_cons_of_mem m hn))

/-- C2 counterexample to the table count: the schema-creation script holds
nine CREATE TABLE statements, not eight. -/
theorem schema_table_count_not_eight :
    schemaTableNames.length ≠ 8 ∧ schemaTableNames.length = 9 := by decide

/-- C2 (amended to nine tables): rerunning the schema-creation script on any
database it has already run on succeeds and changes nothing — every CREATE
TABLE is guarded by IF NOT EXISTS. -/
theorem runSchemaScript_idempotent (db db' : DB)
    (h : runSchemaScript db = .ok db') : runSchemaScript db' = .ok db' := by
  have he := runSchemaScript_eq db
  rw [h] at he
  have hdb' : db' = schemaTableNames.foldl (fun d n => addTable n d) db :=
    Except.ok.inj he
  rw [runSchemaScript_eq db',
      foldl_addTable_of_contains schemaTableNames db'
        (fun n hn => by rw [hdb']; exact contains_foldl_addTable schemaTableNames n hn db)]

/-- C2 witness: running the schema script on the empty database and then
again on the result succeeds and returns the result unchanged. -/
theorem runSchemaScript_idempotent_witness :
    runSchemaScript schemaDb = .ok schemaDb :=
  runSchemaScript_idempotent emptyDb schemaDb rfl

/-! ## Theorems: seed script (C3, C4) -/

lemma reachable_foldl (ops : List Op) : ∀ {db : DB}, Reachable db →
    Reachable (ops.foldl applyOp db) := by
  induction ops with
  | nil => exact fun h => h
  | cons op rest ih => exact fun h => ih (Reachable.step op h)

lemma reachable_seedDb : Reachable seedDb :=
  reachable_foldl seedOps Reachable.base

/-- C3: running schema creation then the seed script once on an empty
database succeeds as a whole (so every insert, including the admission
insert with its hard-coded `registration_id = 2`, is accepted), leaving
exactly 2 registration rows — one of which has id 2, referenced by the
admission row — and exactly 7 course rows. -/
theorem seed_script_counts :
    runScript schemaDb seedOps = .ok seedDb ∧
    seedDb.registration.length = 2 ∧
    seedDb.course.length = 7 ∧
    (∃ r ∈ seedDb.registration, r.id = 2) ∧
    (∃ a ∈ seedDb.admission, a.registration_id = some 2) := by
  refine ⟨rfl, rfl, rfl, by decide, by decide⟩

/-- C4 counterexample: the rerun of the seed script is not rejected on the
`registration.username` constraint (the course insert fails first). -/
theorem seed_rerun_not_username_violation :
    runScript seedDb seedOps ≠
      .error (.uniqueViolation "registration" "username") := by
  intro h
  have h2 : (Except.error (SqlError.uniqueViolation "course" "course_code") :
      Except SqlError DB) = .error (.uniqueViolation "registration" "username") :=
    Eq.trans (rfl : _ = runScript seedDb seedOps) h
  exact absurd (Except.error.inj h2) (by decide)

/-- C4 (amended): rerunning the seed script after a successful run is
rejected with a unique-constraint violation — on `course.course_code`, the
first statement to execute — rather than duplicating rows. -/
theorem seed_rerun_fails_on_course_code :
    runScript seedDb seedOps =
      .error (.uniqueViolation "course" "course_code") := rfl

/-! ## Theorems: reachable-state invariants (C5, C9) -/

lemma applyOp_of_error {db : DB} {op : Op} {e : SqlError}
    (h : execOp db op = .error e) : applyOp db op = db := by
  unfold applyOp
  rw [h]

lemma applyOp_of_ok {db db' : DB} {op : Op}
    (h : execOp db op = .ok db') : applyOp db op = db' := by
  unfold applyOp
  rw [h]

lemma applyOp_cases (db : DB) (op : Op) :
    applyOp db op = db ∨ execOp db op = .ok (applyOp db op) := by
  rcases hx : execOp db op with e | db'
  · exact Or.inl (applyOp_of_error hx)
  · exact Or.inr (by rw [applyOp_of_ok hx])

lemma nodup_append_single {α : Type} (l : List α) (b : α)
    (h1 : l.Nodup) (h2 : b ∉ l) : (l ++ [b]).Nodup := by
  rw [List.nodup_append_comm]
  exact List.nodup_cons.mpr ⟨h2, h1⟩

lemma not_mem_map_of_any_false {α β : Type} [BEq β] [LawfulBEq β] (f : α → β)
    (l : List α) (b : β) (h : l.any (fun x => f x == b) = false) :
    b ∉ l.map f := by
  intro hb
  obtain ⟨a, ha, hfa⟩ := List.mem_map.mp hb
  have ht : l.any (fun x => f x == b) = true :=
    List.any_eq_true.mpr ⟨a, ha, by simp [hfa]⟩
  rw [h] at ht
  cases ht

lemma exists_mem_of_contains_map {α : Type} (f : α → Nat) (l : List α) (b : Nat)
    (h : (l.map f).contains b = true) : ∃ a ∈ l, f a = b := by
  have hb : b ∈ l.map f := by simpa using h
  obtain ⟨a, ha, hfa⟩ := List.mem_map.mp hb
  exact ⟨a, ha, hfa⟩

lemma insertRegistration_ok {db : DB} {v : RegistrationRow} {db' : DB}
    (h : insertRegistration db v = .ok db') :
    db.registration.any (fun r => r.username == v.username) = false ∧
    db.registration.any (fun r => r.email_id == v.email_id) = false ∧
    db' = { db with
            registration := db.registration ++ [{ v with id := db.nextRegistrationId }]
            nextRegistrationId := db.nextRegistrationId + 1 } := by
  unfold insertRegistration at h
  split_ifs at h with h1 h2
  · exact ⟨by simpa using h1, by simpa using h2, (Except.ok.inj h).symm⟩

lemma insertAdmission_ok {db : DB} {v : AdmissionRow} {db' : DB}
    (h : insertAdmission db v = .ok db') :
    db.admission.any (fun r => r.aadhar_no == v.aadhar_no) = false ∧
    fkOk (db.registration.map RegistrationRow.id) v.registration_id = true ∧
    db' = { db with
            admission := db.admission ++ [{ v with admission_id := db.nextAdmissionId }]
            nextAdmissionId := db.nextAdmissionId + 1 } := by
  unfold insertAdmission at h
  split_ifs at h with h1 h2
  · exact ⟨by simpa using h1, h2, (Except.ok.inj h).symm⟩

lemma insertStudent_ok {db : DB} {v : StudentRow} {db' : DB}
    (h : insertStudent db v = .ok db') :
    fkOk (db.admission.map AdmissionRow.admission_id) v.admission_id = true ∧
    db' = { db with
            student := db.student ++ [{ v with student_id := db.nextStudentId }]
            nextStudentId := db.nextStudentId + 1 } := by
  unfold insertStudent at h
  split_ifs at h with h1
  · exact ⟨h1, (Except.ok.inj h).symm⟩

lemma insertCourse_ok {db : DB} {v : CourseRow} {db' : DB}
    (h : insertCourse db v = .ok db') :
    db' = { db with
            course := db.course ++ [{ v with course_id := db.nextCourseId }]
            nextCourseId := db.nextCourseId + 1 } := by
  unfold insertCourse at h
  split_ifs at h with h1
  · exact (Except.ok.inj h).symm

lemma insertActivity_ok {db : DB} {v : ActivityRow} {db' : DB}
    (h : insertActivity db v = .ok db') :
    db' = { db with
            activity := db.activity ++ [{ v with activity_id := db.nextActivityId }]
            nextActivityId := db.nextActivityId + 1 } := by
  unfold insertActivity at h
  split_ifs at h with h1
  · exact (Except.ok.inj h).symm

lemma insertExam_ok {db : DB} {v : ExamRow} {db' : DB}
    (h : insertExam db v = .ok db') :
    db' = { db with
            exam := db.exam ++ [{ v with exam_id := db.nextExamId }]
            nextExamId := db.nextExamId + 1 } :=
  (Except.ok.inj h).symm

lemma insertResult_ok {db : DB} {v : ResultRow} {db' : DB}
    (h : insertResult db v = .ok db') :
    db' = { db with
            result := db.result ++ [{ v with result_id := db.nextResultId }]
            nextResultId := db.nextResultId + 1 } := by
  unfold insertResult at h
  split_ifs at h with h1 h2
  · exact (Except.ok.inj h).symm

lemma insertFee_ok {db : DB} {v : FeeRow} {db' : DB}
    (h : insertFee db v = .ok db') :
    db' = { db with
            fee := db.fee ++ [{ v with fee_id := db.nextFeeId }]
            nextFeeId := db.nextFeeId + 1 } := by
  unfold insertFee at h
  split_ifs at h with h1
  · exact (Except.ok.inj h).symm

lemma insertSocialActivity_ok {db : DB} {v : SocialActivityRow} {db' : DB}
    (h : insertSocialActivity db v = .ok db') :
    db' = { db with
            social_activity :=
              db.social_activity ++ [{ v with activity_id := db.nextSocialActivityId }]
            nextSocialActivityId := db.nextSocialActivityId + 1 } := by
  unfold insertSocialActivity at h
  split_ifs at h with h1
  · exact (Except.ok.inj h).symm

lemma inv_applyOp (db : DB) (op : Op) (h : uniqueInv db ∧ fkInv db) :
    uniqueInv (applyOp db op) ∧ fkInv (applyOp db op) := by
  rcases applyOp_cases db op with heq | hok
  · rw [heq]; exact h
  · cases op with
    | insRegistration v =>
        obtain ⟨h1, h2, hdb⟩ := insertRegistration_ok hok
        rw [hdb]
        refine ⟨⟨?_, ?_, h.1.2.2⟩, h.2⟩
        · simpa [uniqueInv, List.map_append] using
            nodup_append_single _ v.username h.1.1
              (not_mem_map_of_any_false _ _ _ h1)
        · simpa [uniqueInv, List.map_append] using
            nodup_append_single _ v.email_id h.1.2.1
              (not_mem_map_of_any_false _ _ _ h2)
    | insAdmission v =>
        obtain ⟨h1, _h2, hdb⟩ := insertAdmission_ok hok
        rw [hdb]
        refine ⟨⟨h.1.1, h.1.2.1, ?_⟩, ?_⟩
        · simpa [uniqueInv, List.map_append] using
            nodup_append_single _ v.aadhar_no h.1.2.2
              (not_mem_map_of_any_false _ _ _ h1)
        · intro s hs aid haid
          obtain ⟨a, ha, hfa⟩ := h.2 s hs aid haid
          exact ⟨a, List.mem_append_left _ ha, hfa⟩
    | insStudent v =>
        obtain ⟨h1, hdb⟩ := insertStudent_ok hok
        rw [hdb]
        refine ⟨h.1, ?_⟩
        intro s hs aid haid
        rcases List.mem_append.mp hs with hs | hs
        · exact h.2 s hs aid haid
        · have hsv : s = { v with student_id := db.nextStudentId } := by
            simpa using hs
          have hva : v.admission_id = some aid := by
            rw [hsv] at haid
            exact haid
          have hcont : (db.admission.map AdmissionRow.admission_id).contains aid = true := by
            have h1x := h1
            rw [hva] at h1x
            simpa [fkOk] using h1x
          obtain ⟨a, ha, hfa⟩ := exists_mem_of_contains_map _ _ _ hcont
          exact ⟨a, ha, hfa⟩
    | insCourse v =>
        obtain hdb := insertCourse_ok hok
        rw [hdb]; exact h
    | insActivity v =>
        obtain hdb := insertActivity_ok hok
        rw [hdb]; exact h
    | insExam v =>
        obtain hdb := insertExam_ok hok
        rw [hdb]; exact h
    | insResult v =>
        obtain hdb := insertResult_ok hok
        rw [hdb]; exact h
    | insFee v =>
        obtain hdb := insertFee_ok hok
        rw [hdb]; exact h
    | insSocialActivity v =>
        obtain hdb := insertSocialActivity_ok hok
        rw [hdb]; exact h

lemma reachable_inv (db : DB) (h : Reachable db) : uniqueInv db ∧ fkInv db := by
  induction h with
  | base =>
      refine ⟨⟨List.nodup_nil, List.nodup_nil, List.nodup_nil⟩, ?_⟩
      intro s hs
      rw [show schemaDb.student = [] from rfl] at hs
      cases hs
  | step op _ ih => exact inv_applyOp _ op ih

/-- C5: in every reachable database state the `admission.aadhar_no` values
are pairwise distinct and the `registration.username` and
`registration.email_id` values are pairwise distinct; a registration insert
duplicating a username or email, or an admission insert duplicating an
aadhar number, is rejected with an error and leaves the database unchanged. -/
theorem unique_columns_invariant (db : DB) (h : Reachable db) :
    ((db.admission.map AdmissionRow.aadhar_no).Nodup ∧
     (db.registration.map RegistrationRow.username).Nodup ∧
     (db.registration.map RegistrationRow.email_id).Nodup) ∧
    (∀ v : RegistrationRow,
      (db.registration.any (fun r => r.username == v.username) ||
       db.registration.any (fun r => r.email_id == v.email_id)) = true →
      ∃ e, execOp db (.insRegistration v) = .error e ∧
        applyOp db (.insRegistration v) = db) ∧
    (∀ v : AdmissionRow,
      db.admission.any (fun r => r.aadhar_no == v.aadhar_no) = true →
      execOp db (.insAdmission v) = .error (.uniqueViolation "admission" "aadhar_no") ∧
        applyOp db (.insAdmission v) = db) := by
  refine ⟨⟨(reachable_inv db h).1.2.2, (reachable_inv db h).1.1,
      (reachable_inv db h).1.2.1⟩, fun v hdup => ?_, fun v hdup => ?_⟩
  · cases h1 : db.registration.any (fun r => r.username == v.username) with
    | true =>
        have herr : execOp db (.insRegistration v) =
            .error (.uniqueViolation "registration" "username") := by
          simp [execOp, insertRegistration, h1]
        exact ⟨_, herr, applyOp_of_error herr⟩
    | false =>
        have h2 : db.registration.any (fun r => r.email_id == v.email_id) = true := by
          rw [h1] at hdup
          simpa using hdup
        have herr : execOp db (.insRegistration v) =
            .error (.uniqueViolation "registration" "email_id") := by
          simp [execOp, insertRegistration, h1, h2]
        exact ⟨_, herr, applyOp_of_error herr⟩
  · have herr : execOp db (.insAdmission v) =
        .error (.uniqueViolation "admission" "aadhar_no") := by
      simp [execOp, insertAdmission, hdup]
    exact ⟨herr, applyOp_of_error herr⟩

/-- C5 witness: the seeded database is reachable, and re-inserting a
registration with the already-present username `admin` errors and changes
nothing. -/
theorem unique_columns_invariant_witness :
    ∃ e, execOp seedDb (Op.insRegistration
        { id := 0, username := "admin", password := "other",
          email_id := "other@skylink.edu", mobile_no := "0", created_at := "" })
      = .error e ∧
    applyOp seedDb (Op.insRegistration
        { id := 0, username := "admin", password := "other",
          email_id := "other@skylink.edu", mobile_no := "0", created_at := "" })
      = seedDb :=
  (unique_columns_invariant seedDb reachable_seedDb).2.1 _ (by decide)

/-- C9 counterexample: a student row with a NULL `admission_id` is
insertable, so a reachable state holds a student row while the admission
table is empty — a student without any corresponding admission. -/
theorem student_without_admission_reachable :
    Reachable studentNoAdmissionDb ∧
    studentNoAdmissionDb.student ≠ [] ∧
    studentNoAdmissionDb.admission = [] := by
  refine ⟨?_, by decide, by decide⟩
  exact Reachable.step (Op.insStudent nullAdmissionStudent) Reachable.base

/-- C9 (amended to non-NULL references): in every reachable state, every
student row whose `admission_id` is non-NULL references an existing
admission row; a student insert with a non-NULL `admission_id` that matches
no admission is rejected. -/
theorem student_admission_fk_invariant (db : DB) (h : Reachable db) :
    (∀ s ∈ db.student, ∀ aid, s.admission_id = some aid →
      ∃ a ∈ db.admission, a.admission_id = aid) ∧
    (∀ v : StudentRow,
      fkOk (db.admission.map AdmissionRow.admission_id) v.admission_id = false →
      execOp db (.insStudent v) = .error (.fkViolation "student" "admission_id") ∧
        applyOp db (.insStudent v) = db) := by
  refine ⟨(reachable_inv db h).2, fun v hfk => ?_⟩
  have herr : execOp db (.insStudent v) =
      .error (.fkViolation "student" "admission_id") := by
    simp [execOp, insertStudent, hfk]
  exact ⟨herr, applyOp_of_error herr⟩

/-- C9 witness: the seeded database is reachable and its student row (with
`admission_id = 1`) is matched by an existing admission row. -/
theorem student_admission_fk_invariant_witness :
    ∃ a ∈ seedDb.admission, a.admission_id = 1 :=
  (student_admission_fk_invariant seedDb reachable_seedDb).1
    { seedStudent with student_id := 1 } (by decide) 1 rfl
